import Mathlib

/-!
Shallow embedding of `src/gio_pyio/streamwrapper.c` (the `StreamWrapper`
adapter of gio-pyio).  Bytes are modelled as `Nat`, native byte buffers as
`List Nat`, C `gssize`/`goffset` values as `Int`.  The GIO native layer is
modelled at its interface boundary: each side of the wrapper carries the
booleans the C code queries (`g_input_stream_is_closed`, `g_seekable_can_seek`,
`g_seekable_can_truncate`, `G_IS_FILE_DESCRIPTOR_BASED`) plus the remaining
byte content visible through the `GDataInputStream` line scanner.
Fallible C functions returning a `PyObject *` or `NULL` with an exception set
become `Except PyErr _`; functions whose execution can reach undefined
behaviour (out-of-bounds `memcpy`) return `Option _` with `none` marking the
undefined execution.
-/

namespace GioPyio

/-- Python-level error results, as the C code raises them
(`PyErr_SetString`).  `unsupported` is `io.UnsupportedOperation` with the
message passed to `PyErr_SetString`; the C helper `err_closed` also raises
`UnsupportedOperation`, with the message "I/O operation on closed file". -/
inductive PyErr where
  | unsupported (msg : String)
  | ioFailure
  | typeError
  | valueError
  deriving DecidableEq

/-- State of the `input` side (`GInputStream *input` plus the facts the C
code queries about it).  `closed` is `g_input_stream_is_closed`, `seekable`
is `G_IS_SEEKABLE && g_seekable_can_seek`, `canTruncate` is
`g_seekable_can_truncate`, `fdBased` is `G_IS_FILE_DESCRIPTOR_BASED`, `fd`
the value `g_file_descriptor_based_get_fd` would return, and `data` the
remaining bytes the stream will deliver. -/
structure InSide where
  closed : Bool
  seekable : Bool
  canTruncate : Bool
  fdBased : Bool
  fd : Int
  data : List Nat
  deriving DecidableEq

/-- State of the `output` side (`GOutputStream *output`).  `pos` is the value
`g_seekable_tell` returns for it and `size` the current stream size
(mutated by `g_seekable_truncate`). -/
structure OutSide where
  closed : Bool
  seekable : Bool
  canTruncate : Bool
  fdBased : Bool
  fd : Int
  pos : Int
  size : Int
  deriving DecidableEq

/-- The `StreamWrapper` C struct: optional `input` and `output` references
and the presence of the `GIOStream *io` duplex container (the C field `io`;
only its presence matters to the adapter logic modelled here). -/
structure StreamWrapper where
  input : Option InSide
  output : Option OutSide
  duplex : Bool
  deriving DecidableEq

/-- `err_closed` from the source: `UnsupportedOperation` with the message
"I/O operation on closed file". -/
def err_closed : PyErr := .unsupported "I/O operation on closed file"

/-- `err_not_readable` from the source. -/
def err_not_readable : PyErr := .unsupported "Stream is not readable"

/-- `err_not_writable` from the source. -/
def err_not_writable : PyErr := .unsupported "Stream is not writable"

/-- `err_not_seekable` from the source. -/
def err_not_seekable : PyErr := .unsupported "Underlying stream is not seekable"

/-- `is_closed` from the source (streamwrapper.c lines 110-122):
starts from `unclosed = TRUE`, ANDs in `!is_closed(side)` for each present
side, and returns the negation. -/
def is_closed (self : StreamWrapper) : Bool :=
  let unclosed := true
  let unclosed := match self.input with
    | some i => unclosed && !i.closed
    | none => unclosed
  let unclosed := match self.output with
    | some o => unclosed && !o.closed
    | none => unclosed
  !unclosed

/-- `StreamWrapper_get_closed` from the source: the `closed` property simply
reports `is_closed`. -/
def StreamWrapper_get_closed (self : StreamWrapper) : Bool :=
  is_closed self

/-- `is_readable` from the source: the wrapper is readable iff the `input`
reference is present. -/
def is_readable (self : StreamWrapper) : Bool :=
  self.input.isSome

/-- `is_writable` from the source: the wrapper is writable iff the `output`
reference is present. -/
def is_writable (self : StreamWrapper) : Bool :=
  self.output.isSome

/-- `is_seekable` from the source (lines 834-849): `unseekable` starts TRUE,
each present side ANDs in the negation of its seek support, and the result
is negated — i.e. seekable iff at least one present side can seek. -/
def is_seekable (self : StreamWrapper) : Bool :=
  let unseekable := true
  let unseekable := match self.input with
    | some i => unseekable && !i.seekable
    | none => unseekable
  let unseekable := match self.output with
    | some o => unseekable && !o.seekable
    | none => unseekable
  !unseekable

/-- `is_fd_based` from the source (lines 1045-1056), transcribed exactly as
written: `not_fd_based` starts TRUE and each present side ANDs in
`G_IS_FILE_DESCRIPTOR_BASED (side)` — note, unlike `is_closed` and
`is_seekable`, WITHOUT a negation — and the function returns
`!not_fd_based`.  So as written it returns true iff at least one present
side is NOT descriptor-based. -/
def is_fd_based (self : StreamWrapper) : Bool :=
  let not_fd_based := true
  let not_fd_based := match self.input with
    | some i => not_fd_based && i.fdBased
    | none => not_fd_based
  let not_fd_based := match self.output with
    | some o => not_fd_based && o.fdBased
    | none => not_fd_based
  !not_fd_based

/-- `get_fd` from the source (lines 1058-1069): assigns from the input side,
then overwrites from the output side when present.  The C local is
uninitialized when neither side exists; that case is unreachable behind the
`is_fd_based` guard and is modelled as 0. -/
def get_fd (self : StreamWrapper) : Int :=
  let fd : Int := 0
  let fd := match self.input with
    | some i => i.fd
    | none => fd
  let fd := match self.output with
    | some o => o.fd
    | none => fd
  fd

/-- `StreamWrapper_readable_impl` from the source (lines 221-229): returns
`is_readable` — the source performs no closed check here. -/
def StreamWrapper_readable_impl (self : StreamWrapper) : Except PyErr Bool :=
  .ok (is_readable self)

/-- `StreamWrapper_writable_impl` from the source (lines 619-627): returns
`is_writable` — the source performs no closed check here. -/
def StreamWrapper_writable_impl (self : StreamWrapper) : Except PyErr Bool :=
  .ok (is_writable self)

/-- `StreamWrapper_seekable_impl` from the source (lines 868-879): raises
`err_closed` on a closed wrapper, otherwise returns `is_seekable`. -/
def StreamWrapper_seekable_impl (self : StreamWrapper) : Except PyErr Bool :=
  if is_closed self then .error err_closed
  else .ok (is_seekable self)

/-- `StreamWrapper_fileno_impl` from the source (lines 1082-1094): closed
check, then `is_fd_based` gate raising `UnsupportedOperation ("fileno")`,
then `get_fd`. -/
def StreamWrapper_fileno_impl (self : StreamWrapper) : Except PyErr Int :=
  if is_closed self then .error err_closed
  else if !is_fd_based self then .error (.unsupported "fileno")
  else .ok (get_fd self)

/-- Replace the remaining byte content of the `input` side (the effect of the
native layer consuming bytes); all other fields, and the handle set, are
untouched. -/
def setInputData (self : StreamWrapper) (d : List Nat) : StreamWrapper :=
  ⟨self.input.map (fun i => ⟨i.closed, i.seekable, i.canTruncate, i.fdBased, i.fd, d⟩),
   self.output, self.duplex⟩

/-- `g_data_input_stream_read_line` with newline type LF, at the interface
boundary (streamwrapper.c sets `G_DATA_STREAM_NEWLINE_TYPE_LF` at init):
returns `none` at EOF (the C call returns NULL with no error); otherwise
returns the next line WITHOUT its trailing LF, together with the remaining
bytes after the consumed line and delimiter.  A final line with no trailing
LF is returned as-is. -/
def readLineNative (data : List Nat) : Option (List Nat × List Nat) :=
  match data with
  | [] => none
  | _ :: _ =>
    let line := data.takeWhile (fun b => b != 10)
    match data.drop line.length with
    | [] => some (line, [])
    | _ :: tail => some (line, tail)

theorem readLineNative_length {data line rest : List Nat}
    (h : readLineNative data = some (line, rest)) : rest.length < data.length := by
  match data with
  | [] => simp [readLineNative] at h
  | a :: as =>
    simp only [readLineNative] at h
    cases hd : (a :: as).drop ((a :: as).takeWhile (fun b => b != 10)).length with
    | nil =>
      rw [hd] at h
      injection h with h1
      injection h1 with h1 h2
      subst h2
      simp
    | cons b tail =>
      rw [hd] at h
      injection h with h1
      injection h1 with h1 h2
      subst h2
      have hdl : ((a :: as).drop ((a :: as).takeWhile (fun b => b != 10)).length).length
          = (a :: as).length - ((a :: as).takeWhile (fun b => b != 10)).length :=
        List.length_drop _ _
      rw [hd] at hdl
      simp only [List.length_cons] at hdl ⊢
      omega

/-- The accumulation loop of `StreamWrapper_readlines_impl` (lines 544-574):
read a line; at EOF stop; otherwise append the stripped LF back, add the
line, add its length (delimiter included) to the running total, and stop
when a positive hint has been reached or exceeded.  Returns the collected
lines and the remaining input bytes. -/
def readlinesLoop (hint : Int) (data : List Nat) (total : Int)
    (acc : List (List Nat)) : List (List Nat) × List Nat :=
  match h : readLineNative data with
  | none => (acc.reverse, data)
  | some (line, rest) =>
    let line2 := line ++ [10]
    let total2 := total + (line2.length : Int)
    if hint > 0 ∧ total2 ≥ hint then ((line2 :: acc).reverse, rest)
    else readlinesLoop hint rest total2 (line2 :: acc)
termination_by data.length
decreasing_by exact readLineNative_length h

/-- `StreamWrapper_readlines_impl` from the source (lines 522-598): closed
and readable guards, the accumulation loop, then conversion of each stored
C string with `strlen` (`PyBytes_FromStringAndSize (line, strlen (line))`),
which cuts a line at its first NUL byte. -/
def StreamWrapper_readlines_impl (self : StreamWrapper) (hint : Int) :
    Except PyErr (List (List Nat) × StreamWrapper) :=
  if is_closed self then .error err_closed
  else match self.input with
  | none => .error err_not_readable
  | some i =>
    let r := readlinesLoop hint i.data 0 []
    .ok (r.1.map (fun l => l.takeWhile (fun b => b != 0)), setInputData self r.2)

/-- `StreamWrapper_readline_impl` from the source (lines 460-504): closed
and readable guards; `size == 0` returns empty bytes; EOF (NULL line, no
error) returns empty bytes; otherwise the stripped line is cut down to
`size` bytes when `size > 0 && length > size`, and a LF is appended. -/
def StreamWrapper_readline_impl (self : StreamWrapper) (size : Int) :
    Except PyErr (List Nat × StreamWrapper) :=
  if is_closed self then .error err_closed
  else match self.input with
  | none => .error err_not_readable
  | some i =>
    if size = 0 then .ok ([], self)
    else match readLineNative i.data with
    | none => .ok ([], self)
    | some (line, rest) =>
      let length := if size > 0 ∧ (line.length : Int) > size then size.toNat
                    else line.length
      .ok (line.take length ++ [10], setInputData self rest)

/-- `StreamWrapper_iternext` from the source (lines 1153-1189): closed and
readable guards; after the line read, `length == 0` — which holds both at
EOF (NULL line, `length` left at its initialization 0) and for an empty
line — raises StopIteration, modelled as `.ok (none, _)`; otherwise the
line with LF re-appended is yielded. -/
def StreamWrapper_iternext (self : StreamWrapper) :
    Except PyErr (Option (List Nat) × StreamWrapper) :=
  if is_closed self then .error err_closed
  else match self.input with
  | none => .error err_not_readable
  | some i =>
    match readLineNative i.data with
    | none => .ok (none, self)
    | some (line, rest) =>
      if line.length = 0 then .ok (none, setInputData self rest)
      else .ok (some (line ++ [10]), setInputData self rest)

/-- The chunk-reassembly loop of `read_until_eof` (streamwrapper.c lines
290-307), with the preceding read loop abstracted by its outcome: `chunks`
is the sequence of native partial reads (`g_input_stream_read` results) in
order — each nonempty, each at most `bufsize` long, followed by the
zero-length EOF read that ends the loop.  Each chunk buffer was shrunk by
`g_realloc` to its actual length.  The source copies, for chunk `i`,
`chunk_size = (i == chunks->len - 1) ? total_size - offset : bufsize` bytes
out of that buffer; a copy size that is negative or exceeds the chunk
buffer's length is an out-of-bounds `memcpy` (undefined behaviour),
modelled as `none`. -/
def assembleChunks (bufsize total : Int) :
    List (List Nat) → Int → Option (List Nat)
  | [], _ => some []
  | c :: cs, offset =>
    let csize := if cs.isEmpty then total - offset else bufsize
    if 0 ≤ csize ∧ csize ≤ (c.length : Int) then
      (assembleChunks bufsize total cs (offset + csize)).map
        (fun rest => c.take csize.toNat ++ rest)
    else none

/-- `read_until_eof` from the source (lines 232-311), parametrized by the
native read schedule `chunks` (see `assembleChunks`): `total_size` is the
sum of the partial read lengths, and the result bytes are produced by the
reassembly loop. -/
def read_until_eof (bufsize : Nat) (chunks : List (List Nat)) : Option (List Nat) :=
  let total := (chunks.map List.length).sum
  assembleChunks (bufsize : Int) (total : Int) chunks 0

/-- `StreamWrapper_read_impl` from the source (lines 330-374): closed and
readable guards; `size == 0` returns empty bytes with no native call;
`!(size > 0)` delegates to `read_until_eof` (with `chunks` the native read
schedule and `bufsize` the chunk size chosen at lines 234-239, consuming
the input); a positive `size` performs `g_input_stream_read_all`, which
delivers `min size available` bytes.  The outer `Option` is `none` exactly
when `read_until_eof` reaches undefined behaviour. -/
def StreamWrapper_read_impl (self : StreamWrapper) (size : Int) (bufsize : Nat)
    (chunks : List (List Nat)) :
    Option (Except PyErr (List Nat × StreamWrapper)) :=
  if is_closed self then some (.error err_closed)
  else match self.input with
  | none => some (.error err_not_readable)
  | some i =>
    if size = 0 then some (.ok ([], self))
    else if !(size > 0) then
      match read_until_eof bufsize chunks with
      | some bytes => some (.ok (bytes, setInputData self []))
      | none => none
    else
      let n := min size.toNat i.data.length
      some (.ok (i.data.take n, setInputData self (i.data.drop n)))

/-- `g_seekable_can_truncate (G_SEEKABLE (self->output))` as called by
`StreamWrapper_truncate_impl` (line 1027): the source consults the OUTPUT
side only.  When `output` is NULL the GLib type check fails and the call
returns FALSE (after logging a critical), so the absent-output case is
`false`. -/
def canTruncateOutput (self : StreamWrapper) : Bool :=
  match self.output with
  | some o => o.canTruncate
  | none => false

/-- `g_seekable_tell (G_SEEKABLE (self->output))` as called at line 1032;
0 for the unreachable absent-output case. -/
def tellOutput (self : StreamWrapper) : Int :=
  match self.output with
  | some o => o.pos
  | none => 0

/-- Set the `size` of the output side (the effect of
`g_seekable_truncate`); position and handle set are untouched. -/
def setOutputSize (self : StreamWrapper) (s : Int) : StreamWrapper :=
  ⟨self.input,
   self.output.map (fun o => ⟨o.closed, o.seekable, o.canTruncate, o.fdBased, o.fd, o.pos, s⟩),
   self.duplex⟩

/-- `StreamWrapper_truncate_impl` from the source (lines 1013-1043): closed
and seekable guards; `g_seekable_can_truncate` on the output side gates an
`UnsupportedOperation ("truncate")`; with no size argument the current
output position (`g_seekable_tell (output)`) is used; the stream is
truncated to `size` and `size` is returned. -/
def StreamWrapper_truncate_impl (self : StreamWrapper) (sizeArg : Option Int) :
    Except PyErr (Int × StreamWrapper) :=
  if is_closed self then .error err_closed
  else if !is_seekable self then .error err_not_seekable
  else if !canTruncateOutput self then .error (.unsupported "truncate")
  else
    let size := match sizeArg with
      | some s => s
      | none => tellOutput self
    .ok (size, setOutputSize self size)

/-- The shape of the GObject handed to the constructor, as classified by the
chain `G_IS_INPUT_STREAM` / `G_IS_OUTPUT_STREAM` / `G_IS_IO_STREAM` (these
GObject classes are pairwise disjoint).  An `ioStream` carries the two
sub-streams `g_io_stream_get_input_stream` / `g_io_stream_get_output_stream`
expose. -/
inductive GObjKind where
  | inputStream (i : InSide)
  | outputStream (o : OutSide)
  | ioStream (i : InSide) (o : OutSide)
  | other
  deriving DecidableEq

/-- The Python argument passed to the constructor: a GObject wrapper with a
live pointer, a GObject wrapper whose pointer is NULL, or a non-GObject
value. -/
inductive PyHandle where
  | gobject (k : GObjKind)
  | nullGObject
  | notGObject
  deriving DecidableEq

/-- `StreamWrapper_init` from the source (lines 34-101): a non-GObject
argument raises TypeError ("expected a GIO stream object"); a NULL GObject
pointer raises ValueError; otherwise the handle is classified — input
stream, output stream, or IO stream decomposed into both sides plus the
container reference — and any other class raises TypeError. -/
def StreamWrapper_init : PyHandle → Except PyErr StreamWrapper
  | .notGObject => .error .typeError
  | .nullGObject => .error .valueError
  | .gobject k =>
    match k with
    | .inputStream i => .ok ⟨some i, none, false⟩
    | .outputStream o => .ok ⟨none, some o, false⟩
    | .ioStream i o => .ok ⟨some i, some o, true⟩
    | .other => .error .typeError

/-- `close_wrapper` from the source (lines 142-179): with a duplex
container, `g_io_stream_close` closes the unit (both sides become closed);
otherwise input and output are closed independently, input first.  In both
cases the net state effect is that every present side reports closed; no
reference is dropped. -/
def close_wrapper (self : StreamWrapper) : StreamWrapper :=
  ⟨self.input.map (fun i => ⟨true, i.seekable, i.canTruncate, i.fdBased, i.fd, i.data⟩),
   self.output.map (fun o => ⟨true, o.seekable, o.canTruncate, o.fdBased, o.fd, o.pos, o.size⟩),
   self.duplex⟩

/-- `StreamWrapper_close_impl` from the source (lines 190-200): a no-op on
an already-closed wrapper, otherwise `close_wrapper`. -/
def StreamWrapper_close_impl (self : StreamWrapper) : StreamWrapper :=
  if is_closed self then self else close_wrapper self

/-- Shape (a): `input` present, `output` and duplex container absent. -/
def shapeInputOnly (self : StreamWrapper) : Bool :=
  self.input.isSome && !self.output.isSome && !self.duplex

/-- Shape (b): `output` present, `input` and duplex container absent. -/
def shapeOutputOnly (self : StreamWrapper) : Bool :=
  !self.input.isSome && self.output.isSome && !self.duplex

/-- Shape (c): `input`, `output` and the duplex container all present. -/
def shapeDuplex (self : StreamWrapper) : Bool :=
  self.input.isSome && self.output.isSome && self.duplex

/-- Number of the three recognized shapes the wrapper currently satisfies. -/
def shapeCount (self : StreamWrapper) : Nat :=
  cond (shapeInputOnly self) 1 0 + cond (shapeOutputOnly self) 1 0
    + cond (shapeDuplex self) 1 0

/-- The handle-set signature: which of `input`, `output` and the duplex
container are present. -/
def handles (self : StreamWrapper) : Bool × Bool × Bool :=
  (self.input.isSome, self.output.isSome, self.duplex)

/-- The modelled state-changing operations of the wrapper. -/
inductive WrapperOp where
  | close
  | read (size : Int) (bufsize : Nat) (chunks : List (List Nat))
  | readline (size : Int)
  | readlines (hint : Int)
  | iternext
  | truncate (sizeArg : Option Int)

/-- Post-state of each modelled operation: the successor wrapper state on
success, the unchanged state when the operation raises (the C functions
mutate no wrapper field before raising). -/
def applyOp : WrapperOp → StreamWrapper → StreamWrapper
  | .close, w => StreamWrapper_close_impl w
  | .read s b c, w =>
    match StreamWrapper_read_impl w s b c with
    | some (.ok (_, w2)) => w2
    | _ => w
  | .readline s, w =>
    match StreamWrapper_readline_impl w s with
    | .ok (_, w2) => w2
    | .error _ => w
  | .readlines h, w =>
    match StreamWrapper_readlines_impl w h with
    | .ok (_, w2) => w2
    | .error _ => w
  | .iternext, w =>
    match StreamWrapper_iternext w with
    | .ok (_, w2) => w2
    | .error _ => w
  | .truncate s, w =>
    match StreamWrapper_truncate_impl w s with
    | .ok (_, w2) => w2
    | .error _ => w

theorem handles_setInputData (w : StreamWrapper) (d : List Nat) :
    handles (setInputData w d) = handles w := by
  rcases w with ⟨i, o, dx⟩
  cases i <;> rfl

theorem handles_setOutputSize (w : StreamWrapper) (s : Int) :
    handles (setOutputSize w s) = handles w := by
  rcases w with ⟨i, o, dx⟩
  cases o <;> rfl

theorem handles_close_wrapper (w : StreamWrapper) :
    handles (close_wrapper w) = handles w := by
  rcases w with ⟨i, o, dx⟩
  cases i <;> cases o <;> rfl

theorem read_impl_state {w : StreamWrapper} {s : Int} {b : Nat}
    {c : List (List Nat)} {r : List Nat} {w2 : StreamWrapper}
    (h : StreamWrapper_read_impl w s b c = some (.ok (r, w2))) :
    handles w2 = handles w := by
  unfold StreamWrapper_read_impl at h
  split at h
  · simp at h
  split at h
  · simp at h
  split at h
  · simp at h
    rw [← h.2]
  split at h
  · split at h
    · simp at h
      rw [← h.2]
      exact handles_setInputData w []
    · simp at h
  · simp at h
    rw [← h.2]
    exact handles_setInputData w _

theorem readline_impl_state {w : StreamWrapper} {s : Int} {r : List Nat}
    {w2 : StreamWrapper}
    (h : StreamWrapper_readline_impl w s = .ok (r, w2)) :
    handles w2 = handles w := by
  unfold StreamWrapper_readline_impl at h
  split at h
  · simp at h
  split at h
  · simp at h
  split at h
  · simp at h
    rw [← h.2]
  split at h
  · simp at h
    rw [← h.2]
  · simp at h
    rw [← h.2]
    exact handles_setInputData w _

theorem readlines_impl_state {w : StreamWrapper} {hint : Int}
    {r : List (List Nat)} {w2 : StreamWrapper}
    (h : StreamWrapper_readlines_impl w hint = .ok (r, w2)) :
    handles w2 = handles w := by
  unfold StreamWrapper_readlines_impl at h
  split at h
  · simp at h
  split at h
  · simp at h
  · simp at h
    rw [← h.2]
    exact handles_setInputData w _

theorem iternext_state {w : StreamWrapper} {r : Option (List Nat)}
    {w2 : StreamWrapper}
    (h : StreamWrapper_iternext w = .ok (r, w2)) :
    handles w2 = handles w := by
  unfold StreamWrapper_iternext at h
  split at h
  · simp at h
  split at h
  · simp at h
  split at h
  · simp at h
    rw [← h.2]
  split at h
  · simp at h
    rw [← h.2]
    exact handles_setInputData w _
  · simp at h
    rw [← h.2]
    exact handles_setInputData w _

theorem truncate_impl_state {w : StreamWrapper} {s : Option Int} {r : Int}
    {w2 : StreamWrapper}
    (h : StreamWrapper_truncate_impl w s = .ok (r, w2)) :
    handles w2 = handles w := by
  unfold StreamWrapper_truncate_impl at h
  split at h
  · simp at h
  split at h
  · simp at h
  split at h
  · simp at h
  · simp at h
    rw [← h.2]
    exact handles_setOutputSize w _

theorem handles_applyOp (op : WrapperOp) (w : StreamWrapper) :
    handles (applyOp op w) = handles w := by
  cases op with
  | close =>
    show handles (StreamWrapper_close_impl w) = handles w
    unfold StreamWrapper_close_impl
    split
    · rfl
    · exact handles_close_wrapper w
  | read s b c =>
    show handles (match StreamWrapper_read_impl w s b c with
      | some (.ok (_, w2)) => w2
      | _ => w) = handles w
    cases hr : StreamWrapper_read_impl w s b c with
    | none => rfl
    | some e =>
      cases e with
      | error _ => rfl
      | ok p => exact read_impl_state (by rw [hr])
  | readline s =>
    show handles (match StreamWrapper_readline_impl w s with
      | .ok (_, w2) => w2
      | .error _ => w) = handles w
    cases hr : StreamWrapper_readline_impl w s with
    | error _ => rfl
    | ok p => exact readline_impl_state (by rw [hr])
  | readlines hnt =>
    show handles (match StreamWrapper_readlines_impl w hnt with
      | .ok (_, w2) => w2
      | .error _ => w) = handles w
    cases hr : StreamWrapper_readlines_impl w hnt with
    | error _ => rfl
    | ok p => exact readlines_impl_state (by rw [hr])
  | iternext =>
    show handles (match StreamWrapper_iternext w with
      | .ok (_, w2) => w2
      | .error _ => w) = handles w
    cases hr : StreamWrapper_iternext w with
    | error _ => rfl
    | ok p => exact iternext_state (by rw [hr])
  | truncate s =>
    show handles (match StreamWrapper_truncate_impl w s with
      | .ok (_, w2) => w2
      | .error _ => w) = handles w
    cases hr : StreamWrapper_truncate_impl w s with
    | error _ => rfl
    | ok p => exact truncate_impl_state (by rw [hr])

/-- Successful value of an `Except`, `none` when it is an error. -/
def okValue {ε α : Type} : Except ε α → Option α
  | .ok a => some a
  | .error _ => none

/-- Unfolding equation of `readlinesLoop` at EOF. -/
theorem readlinesLoop_none {hint : Int} {data : List Nat} {total : Int}
    {acc : List (List Nat)} (h : readLineNative data = none) :
    readlinesLoop hint data total acc = (acc.reverse, data) := by
  rw [readlinesLoop]
  split
  · rfl
  · rename_i line rest heq
    rw [h] at heq
    simp at heq

/-- Unfolding equation of `readlinesLoop` on a successful line read. -/
theorem readlinesLoop_some {hint : Int} {data : List Nat} {total : Int}
    {acc : List (List Nat)} {line rest : List Nat}
    (h : readLineNative data = some (line, rest)) :
    readlinesLoop hint data total acc
      = (if hint > 0 ∧ total + ((line ++ [10]).length : Int) ≥ hint
         then (((line ++ [10]) :: acc).reverse, rest)
         else readlinesLoop hint rest (total + ((line ++ [10]).length : Int))
                ((line ++ [10]) :: acc)) := by
  rw [readlinesLoop]
  split
  · rename_i heq
    rw [h] at heq
    simp at heq
  · rename_i line2 rest2 heq
    rw [h] at heq
    injection heq with heq
    injection heq with h1 h2
    subst h1
    subst h2
    rfl

/-- Helper: how `readline`'s truncation arithmetic relates to `min` for a
positive limit. -/
theorem readline_len_min (size : Int) (n : Nat) (hs : 0 < size) :
    (if size > 0 ∧ (n : Int) > size then size.toNat else n) = min n size.toNat := by
  by_cases h : (n : Int) > size
  · rw [if_pos ⟨hs, h⟩]
    omega
  · rw [if_neg (fun hx => h hx.2)]
    omega

/-- Helper: the native line scanner on content whose first byte is the LF
delimiter returns the empty line and consumes the delimiter. -/
theorem readLineNative_lf (rest : List Nat) :
    readLineNative (10 :: rest) = some ([], rest) := by
  simp [readLineNative]

/-- A duplex-shaped wrapper whose input side reports closed while its output
side reports open. -/
def c1Wrapper : StreamWrapper :=
  ⟨some ⟨true, false, false, false, 0, []⟩,
   some ⟨false, false, false, false, 0, 0, 0⟩, true⟩

/-- C1: counterexample — on a wrapper holding both sides where exactly one
side (the input) reports closed, `is_closed` is true, refuting the claim
that `closed` is false when exactly one side reports closed. -/
theorem c1_both_sides_one_closed_cex :
    c1Wrapper.input.map (fun i => i.closed) = some true
      ∧ c1Wrapper.output.map (fun o => o.closed) = some false
      ∧ is_closed c1Wrapper = true :=
  ⟨rfl, rfl, rfl⟩

/-- C1 (amended): the derived `closed` of a wrapper holding both sides is
true exactly when AT LEAST ONE side reports closed (OR-of-closed); a
wrapper with a single side derives `closed` from that side alone. -/
theorem c1_is_closed_any_side (i : InSide) (o : OutSide) (b b2 b3 : Bool) :
    is_closed ⟨some i, some o, b⟩ = (i.closed || o.closed)
      ∧ is_closed ⟨some i, none, b2⟩ = i.closed
      ∧ is_closed ⟨none, some o, b3⟩ = o.closed := by
  refine ⟨?_, ?_, ?_⟩ <;>
    simp only [is_closed] <;>
    cases hi : i.closed <;> cases ho : o.closed <;> rfl

/-- C2: the code evaluated at the failing input — a read-to-EOF whose native
layer delivers two 1-byte partial reads (bytes 7 then 8) with chunk size 4.
The reassembly loop's copy size for the first (non-final) chunk is the full
`bufsize` (4) although that chunk holds one byte, and the final chunk's copy
size is `total_size - offset = 2 - 4 < 0`: an out-of-bounds `memcpy`
(undefined behaviour, modelled `none`), not the 2-byte concatenation the
claim requires for every split. -/
theorem c2_read_until_eof_short_chunk_eval :
    read_until_eof 4 [[7], [8]] = none
      ∧ read_until_eof 4 [[7], [8]] ≠ some ([7] ++ [8]) :=
  ⟨rfl, by decide⟩

/-- An open input-only wrapper whose input stream is descriptor-backed with
descriptor 5. -/
def c3Wrapper : StreamWrapper :=
  ⟨some ⟨false, false, false, true, 5, []⟩, none, false⟩

/-- C3: the code evaluated at the failing input — an open input-only wrapper
whose (single, live) input side IS descriptor-backed.  Because `is_fd_based`
lacks the negation that `is_closed`/`is_seekable` apply to each side, it
returns false here, so `fileno` raises UnsupportedOperation instead of
returning the descriptor 5 the claim requires. -/
theorem c3_fileno_fd_backed_eval :
    c3Wrapper.input.map (fun i => i.fdBased) = some true
      ∧ is_closed c3Wrapper = false
      ∧ StreamWrapper_fileno_impl c3Wrapper = .error (.unsupported "fileno") :=
  ⟨rfl, rfl, rfl⟩

/-- A closed input-only wrapper. -/
def c4Wrapper : StreamWrapper :=
  ⟨some ⟨true, false, false, false, 0, []⟩, none, false⟩

/-- C4: counterexample — on a closed wrapper, `readable()` succeeds and
returns a boolean instead of raising the closed-stream error the claim
requires (and so does `writable()`). -/
theorem c4_closed_readable_cex :
    is_closed c4Wrapper = true
      ∧ StreamWrapper_readable_impl c4Wrapper = .ok true
      ∧ StreamWrapper_writable_impl c4Wrapper = .ok false :=
  ⟨rfl, rfl, rfl⟩

/-- C4 (amended): on a closed wrapper only `seekable()` raises the
closed-stream error; `readable()` and `writable()` perform no closed check
and return the capability, and the `closed` query succeeds. -/
theorem c4_predicates_on_closed (w : StreamWrapper) (h : is_closed w = true) :
    StreamWrapper_readable_impl w = .ok (is_readable w)
      ∧ StreamWrapper_writable_impl w = .ok (is_writable w)
      ∧ StreamWrapper_seekable_impl w = .error err_closed
      ∧ StreamWrapper_get_closed w = true := by
  refine ⟨rfl, rfl, ?_, h⟩
  unfold StreamWrapper_seekable_impl
  rw [h]
  rfl

theorem c4_predicates_on_closed_witness :
    StreamWrapper_readable_impl c4Wrapper = .ok (is_readable c4Wrapper)
      ∧ StreamWrapper_writable_impl c4Wrapper = .ok (is_writable c4Wrapper)
      ∧ StreamWrapper_seekable_impl c4Wrapper = .error err_closed
      ∧ StreamWrapper_get_closed c4Wrapper = true :=
  c4_predicates_on_closed c4Wrapper rfl

/-- An open, readable wrapper over the bytes of `b"ab\ncd\nef\n"`. -/
def c5Wrapper : StreamWrapper :=
  ⟨some ⟨false, false, false, false, 0, [97, 98, 10, 99, 100, 10, 101, 102, 10]⟩,
   none, false⟩

theorem c5_loop_eval :
    readlinesLoop 3 [97, 98, 10, 99, 100, 10, 101, 102, 10] 0 []
      = ([[97, 98, 10]], [99, 100, 10, 101, 102, 10]) := by
  rw [readlinesLoop_some (by decide :
    readLineNative [97, 98, 10, 99, 100, 10, 101, 102, 10]
      = some ([97, 98], [99, 100, 10, 101, 102, 10]))]
  rw [if_pos (by decide)]
  decide

theorem c5_impl_eval :
    StreamWrapper_readlines_impl c5Wrapper 3
      = .ok ([[97, 98, 10]], setInputData c5Wrapper [99, 100, 10, 101, 102, 10]) := by
  unfold StreamWrapper_readlines_impl
  rw [show is_closed c5Wrapper = false from rfl]
  simp only [Bool.false_eq_true, if_false]
  show Except.ok ((readlinesLoop 3 [97, 98, 10, 99, 100, 10, 101, 102, 10] 0 []).1.map _,
    setInputData c5Wrapper (readlinesLoop 3 [97, 98, 10, 99, 100, 10, 101, 102, 10] 0 []).2) = _
  rw [c5_loop_eval]
  rfl

/-- C5: counterexample — `readlines` with size hint 3 over `b"ab\ncd\nef\n"`
does NOT return the two lines the claim states: already after the first
line `b"ab\n"` the running total is 3 ≥ 3, so accumulation stops. -/
theorem c5_readlines_hint_cex :
    (okValue (StreamWrapper_readlines_impl c5Wrapper 3)).map Prod.fst
      ≠ some [[97, 98, 10], [99, 100, 10]] := by
  rw [c5_impl_eval]
  decide

/-- C5 (amended): `readlines` with size hint 3 over `b"ab\ncd\nef\n"` returns
exactly the single line `[b"ab\n"]` — the running total reaches the hint
(3 ≥ 3) after the first line, so accumulation stops there. -/
theorem c5_readlines_hint_eval :
    (okValue (StreamWrapper_readlines_impl c5Wrapper 3)).map Prod.fst
      = some [[97, 98, 10]] := by
  rw [c5_impl_eval]
  decide

/-- An open, readable wrapper over the bytes of `b"abcd\n"`. -/
def c6Wrapper : StreamWrapper :=
  ⟨some ⟨false, false, false, false, 0, [97, 98, 99, 100, 10]⟩, none, false⟩

/-- C6: counterexample — over `b"abcd\n"` with limit 2, `readline` returns
the 3-byte sequence `b"ab\n"` (2 bytes of the line plus a re-appended
delimiter), not a result truncated to exactly 2 bytes (`b"ab"`). -/
theorem c6_readline_limit_cex :
    StreamWrapper_readline_impl c6Wrapper 2
        = .ok ([97, 98, 10], setInputData c6Wrapper [])
      ∧ ([97, 98, 10] : List Nat) ≠ [97, 98] :=
  ⟨rfl, by decide⟩

/-- C6 (amended): with a positive limit, `readline` returns the next
delimiter-STRIPPED line truncated to `limit` bytes and then re-appends the
delimiter (so the result is `limit + 1` bytes when the natural line is
longer than the limit); at EOF it returns the empty byte sequence. -/
theorem c6_readline_limit (w : StreamWrapper) (i : InSide) (size : Int)
    (hw : w.input = some i) (hc : is_closed w = false) (hs : 0 < size) :
    (i.data = [] → StreamWrapper_readline_impl w size = .ok ([], w))
      ∧ (∀ line rest, readLineNative i.data = some (line, rest) →
          StreamWrapper_readline_impl w size
            = .ok (line.take (min line.length size.toNat) ++ [10],
                   setInputData w rest)) := by
  have hs0 : ¬(size = 0) := by omega
  constructor
  · intro hd
    unfold StreamWrapper_readline_impl
    rw [hc, hw]
    simp [hs0, hd, readLineNative]
  · intro line rest hline
    unfold StreamWrapper_readline_impl
    rw [hc, hw]
    simp only [Bool.false_eq_true, if_false, hs0, hline]
    rw [readline_len_min size line.length hs]

theorem c6_readline_limit_witness :
    (0 : Int) < 2
      ∧ StreamWrapper_readline_impl c6Wrapper 2
          = .ok ([97, 98, 99, 100].take (min 4 2) ++ [10], setInputData c6Wrapper []) := by
  refine ⟨by decide, ?_⟩
  exact (c6_readline_limit c6Wrapper ⟨false, false, false, false, 0, [97, 98, 99, 100, 10]⟩ 2
    rfl rfl (by decide)).2 [97, 98, 99, 100] [] (by decide)

/-- C7: every successful construction yields exactly one of the three handle
shapes (input only; output only; input, output and duplex container);
constructing from a GObject of unrecognized class — or from a non-GObject —
fails with the invalid-argument error (the C code's TypeError); and no
modelled operation changes which handles are present. -/
theorem c7_shape_invariant :
    (∀ h w, StreamWrapper_init h = .ok w → shapeCount w = 1)
      ∧ StreamWrapper_init (.gobject .other) = .error .typeError
      ∧ StreamWrapper_init .notGObject = .error .typeError
      ∧ (∀ op w, handles (applyOp op w) = handles w) := by
  refine ⟨?_, rfl, rfl, handles_applyOp⟩
  intro h w hw
  cases h with
  | notGObject => simp [StreamWrapper_init] at hw
  | nullGObject => simp [StreamWrapper_init] at hw
  | gobject k =>
    cases k with
    | inputStream i =>
      simp only [StreamWrapper_init, Except.ok.injEq] at hw
      rw [← hw]
      rfl
    | outputStream o =>
      simp only [StreamWrapper_init, Except.ok.injEq] at hw
      rw [← hw]
      rfl
    | ioStream i o =>
      simp only [StreamWrapper_init, Except.ok.injEq] at hw
      rw [← hw]
      rfl
    | other => simp [StreamWrapper_init] at hw

theorem c7_shape_invariant_witness :
    shapeCount ⟨some ⟨false, false, false, false, 0, []⟩, none, false⟩ = 1
      ∧ handles (applyOp .close ⟨some ⟨false, false, false, false, 0, []⟩, none, false⟩)
          = handles ⟨some ⟨false, false, false, false, 0, []⟩, none, false⟩ :=
  ⟨c7_shape_invariant.1 (.gobject (.inputStream ⟨false, false, false, false, 0, []⟩)) _ rfl,
   c7_shape_invariant.2.2.2 .close _⟩

/-- An open input-only wrapper whose input stream is seekable AND reports
truncate support. -/
def c8Wrapper : StreamWrapper :=
  ⟨some ⟨false, true, true, false, 0, []⟩, none, false⟩

/-- An open output-only wrapper, seekable and truncatable, at position 7
with current size 99. -/
def c8OutWrapper : StreamWrapper :=
  ⟨none, some ⟨false, true, true, false, 0, 7, 99⟩, false⟩

/-- C8: counterexample — an open, seekable, input-only wrapper whose input
side reports truncate support: `truncate` with no size raises
UnsupportedOperation instead of truncating at the current position, because
the code consults `g_seekable_can_truncate` on the (absent) output side
only. -/
theorem c8_truncate_input_only_cex :
    is_closed c8Wrapper = false
      ∧ is_seekable c8Wrapper = true
      ∧ c8Wrapper.input.map (fun i => i.canTruncate) = some true
      ∧ StreamWrapper_truncate_impl c8Wrapper none = .error (.unsupported "truncate") :=
  ⟨rfl, rfl, rfl, rfl⟩

/-- C8 (amended): on an open, seekable wrapper, truncate support is
consulted on the OUTPUT side only — a wrapper whose output side is absent
or lacks truncate support raises UnsupportedOperation (seekable does not
imply truncatable), and when the output side supports truncate and no size
is given, the output stream is truncated at its current position. -/
theorem c8_truncate_output_side (w : StreamWrapper)
    (hc : is_closed w = false) (hs : is_seekable w = true) :
    (canTruncateOutput w = false →
        StreamWrapper_truncate_impl w none = .error (.unsupported "truncate"))
      ∧ (∀ o, w.output = some o → o.canTruncate = true →
          StreamWrapper_truncate_impl w none = .ok (o.pos, setOutputSize w o.pos)) := by
  constructor
  · intro ht
    unfold StreamWrapper_truncate_impl
    rw [hc, hs, ht]
    rfl
  · intro o ho ht
    have hcT : canTruncateOutput w = true := by
      unfold canTruncateOutput
      rw [ho]
      exact ht
    unfold StreamWrapper_truncate_impl
    rw [hc, hs, hcT]
    simp [tellOutput, ho]

theorem c8_truncate_output_side_witness :
    StreamWrapper_truncate_impl c8OutWrapper none
      = .ok (7, setOutputSize c8OutWrapper 7) :=
  (c8_truncate_output_side c8OutWrapper rfl rfl).2 _ rfl rfl

/-- C9: on every open, readable wrapper, `read(0)` succeeds with the empty
byte sequence and the wrapper state — in particular the input side's
remaining content — is unchanged: the `size == 0` branch returns before any
native read is issued, whatever native read schedule is in force. -/
theorem c9_read_zero (w : StreamWrapper) (bufsize : Nat) (chunks : List (List Nat))
    (hc : is_closed w = false) (hr : is_readable w = true) :
    StreamWrapper_read_impl w 0 bufsize chunks = some (.ok ([], w)) := by
  unfold StreamWrapper_read_impl
  rw [hc]
  rcases hi : w.input with _ | i
  · rw [is_readable, hi] at hr
    simp at hr
  · simp

theorem c9_read_zero_witness :
    StreamWrapper_read_impl ⟨some ⟨false, false, false, false, 0, [1, 2]⟩, none, false⟩
        0 4 [[9]]
      = some (.ok ([], ⟨some ⟨false, false, false, false, 0, [1, 2]⟩, none, false⟩)) :=
  c9_read_zero _ 4 [[9]] rfl rfl

/-- C10: on an open, readable wrapper whose remaining content begins with
the LF delimiter (the next line is empty, the stream is NOT at EOF),
advancing the iterator signals end-of-sequence (StopIteration, modelled
`.ok (none, _)`) instead of yielding `b"\n"`, while `readline` in the very
same state returns `b"\n"`. -/
theorem c10_iter_empty_line (w : StreamWrapper) (i : InSide) (rest : List Nat)
    (hw : w.input = some i) (hd : i.data = 10 :: rest) (hc : is_closed w = false) :
    StreamWrapper_iternext w = .ok (none, setInputData w rest)
      ∧ StreamWrapper_readline_impl w (-1) = .ok ([10], setInputData w rest)
      ∧ i.data ≠ [] := by
  refine ⟨?_, ?_, by rw [hd]; simp⟩
  · unfold StreamWrapper_iternext
    simp only [hc, hw, Bool.false_eq_true, if_false]
    rw [hd, readLineNative_lf]
    simp
  · unfold StreamWrapper_readline_impl
    simp only [hc, hw, Bool.false_eq_true, if_false]
    rw [if_neg (by decide : ¬((-1 : Int) = 0))]
    rw [hd, readLineNative_lf]
    norm_num

/-- The wrapper of the C10 witness: open, readable, content `b"\ncd"`. -/
def c10Wrapper : StreamWrapper :=
  ⟨some ⟨false, false, false, false, 0, [10, 99, 100]⟩, none, false⟩

theorem c10_iter_empty_line_witness :
    StreamWrapper_iternext c10Wrapper = .ok (none, setInputData c10Wrapper [99, 100])
      ∧ StreamWrapper_readline_impl c10Wrapper (-1)
          = .ok ([10], setInputData c10Wrapper [99, 100])
      ∧ [10, 99, 100] ≠ ([] : List Nat) := by
  have h := c10_iter_empty_line c10Wrapper
    ⟨false, false, false, false, 0, [10, 99, 100]⟩ [99, 100] rfl rfl rfl
  exact ⟨h.1, h.2.1, by decide⟩

end GioPyio
